import Mathlib

/-!
# ESP32Forge/WiFi : bring-up and tear-down of the WiFi peripheral

A shallow embedding of `src/WiFi.c` (`WiFi_init`, `de_init_WiFi`) and of the types
of `src/WiFi.h`.

The ESP-IDF functions that `WiFi.c` calls (`nvs_flash_init`, `esp_wifi_start`, ...)
are the collaborator. A collaborator is a deterministic machine over a state type
`σ` of its own: it answers each call with an integer and a next state, so its
answers may depend on everything it was asked before. `WiFi_init` and
`de_init_WiFi` thread that state and record, in order, every call they issue
together with the answer they got (the call trace).
-/

namespace WiFi

/-! ## Types and constants of ESP-IDF used by `WiFi.c` -/

/-- ESP-IDF `esp_err_t`: a signed status code. -/
abbrev esp_err_t := Int

/-- ESP-IDF `ESP_OK`. -/
def ESP_OK : esp_err_t := 0

/-- ESP-IDF `ESP_FAIL`. -/
def ESP_FAIL : esp_err_t := -1

/-- ESP-IDF `ESP_ERR_NVS_BASE`. -/
def ESP_ERR_NVS_BASE : esp_err_t := 0x1100

/-- ESP-IDF `ESP_ERR_NVS_NO_FREE_PAGES` (`ESP_ERR_NVS_BASE + 0x0d`). -/
def ESP_ERR_NVS_NO_FREE_PAGES : esp_err_t := ESP_ERR_NVS_BASE + 0x0d

/-- ESP-IDF `ESP_ERR_NVS_NEW_VERSION_FOUND` (`ESP_ERR_NVS_BASE + 0x10`). -/
def ESP_ERR_NVS_NEW_VERSION_FOUND : esp_err_t := ESP_ERR_NVS_BASE + 0x10

/-- ESP-IDF `wifi_mode_t`: a C enumeration, so any integer can be passed. -/
abbrev wifi_mode_t := Int

/-- ESP-IDF `WIFI_MODE_NULL`. -/
def WIFI_MODE_NULL : wifi_mode_t := 0

/-- ESP-IDF `WIFI_MODE_STA`. -/
def WIFI_MODE_STA : wifi_mode_t := 1

/-- ESP-IDF `WIFI_MODE_AP`. -/
def WIFI_MODE_AP : wifi_mode_t := 2

/-- ESP-IDF `WIFI_MODE_APSTA`. -/
def WIFI_MODE_APSTA : wifi_mode_t := 3

/-- ESP-IDF `wifi_interface_t`, restricted to the two values `WiFi.c` assigns. -/
inductive wifi_interface_t where
  | WIFI_IF_STA
  | WIFI_IF_AP
  deriving DecidableEq, Repr

/-- ESP-IDF `esp_event_base_t`, restricted to the two bases `WiFi.c` names. -/
inductive esp_event_base_t where
  | WIFI_EVENT
  | IP_EVENT
  deriving DecidableEq, Repr

/-- ESP-IDF `esp_event_handler_t`: a function pointer, here its address. -/
abbrev esp_event_handler_t := Nat

/-- The C null pointer. -/
def NULL : Nat := 0

/-- ESP-IDF `wifi_auth_mode_t` value `WIFI_AUTH_WPA2_PSK`. -/
def WIFI_AUTH_WPA2_PSK : Nat := 3

/-- ESP-IDF `wifi_config_t`, reduced to the fields that `Network_config.h`
fixes (`WIFI_SSID`, `WIFI_PASS`, `WIFI_CHANNEL`, `WIFI_AUTH_MODE`, `MAX_STA_CONN`).
`WiFi_init` never inspects it; it is handed to `esp_wifi_set_config` as is. -/
structure wifi_config_t where
  ssid : String
  password : String
  channel : Nat
  authmode : Nat
  max_connection : Nat
  deriving DecidableEq, Repr

/-! ## `WiFi.h` -/

/-- `WiFi.h`, `WIFI_RETURNS` / `WiFi_return`: the return codes of the module, in
the order of the X-macro list. -/
inductive WiFi_return where
  | CORE_WIFI_OK
  | CORE_WIFI_INIT_ERR
  | CORE_WIFI_INVALID_WIFI_MODE_ERR
  | CORE_WIFI_DE_INIT_ERR
  deriving DecidableEq, Repr

/-- `WiFi.h`, `event_handlers`: a mask and a handler for each of the two event
categories. A `NULL` handler asks for no registration. -/
structure event_handlers where
  WiFi_events_to_handle : Int
  WiFi_event_handler : esp_event_handler_t
  IP_events_to_handle : Int
  IP_event_handler : esp_event_handler_t
  deriving DecidableEq, Repr

/-! ## The collaborator -/

/-- One call of `WiFi.c` into ESP-IDF, with its arguments. `esp_wifi_init` is
always called with `WIFI_INIT_CONFIG_DEFAULT()`, so it carries no argument. -/
inductive Call where
  | nvs_flash_init
  | nvs_flash_erase
  | esp_netif_init
  | esp_event_loop_create_default
  | esp_netif_create_default_wifi_ap
  | esp_netif_create_default_wifi_sta
  | esp_wifi_init
  | esp_event_handler_register (event_base : esp_event_base_t) (event_id : Int)
      (event_handler : esp_event_handler_t) (event_handler_arg : Nat)
  | esp_wifi_set_mode (mode : wifi_mode_t)
  | esp_wifi_set_config (interface : wifi_interface_t) (conf : wifi_config_t)
  | esp_wifi_start
  | esp_wifi_stop
  | esp_wifi_deinit
  deriving DecidableEq, Repr

/-- A collaborator: from its current state and a call, the answer (a status
code, or an address for the two `esp_netif_create_default_wifi_*` calls) and its
next state. -/
structure Collaborator (σ : Type) where
  respond : σ → Call → Int × σ

/-- The collaborator's state together with the calls issued so far, oldest
first, each with the answer it got. -/
structure World (σ : Type) where
  st : σ
  trace : List (Call × Int)

/-- Issue one call: ask the collaborator, record call and answer, move on. -/
def invoke {σ : Type} (c : Collaborator σ) (w : World σ) (k : Call) : Int × World σ :=
  ((c.respond w.st k).1, ⟨(c.respond w.st k).2, w.trace ++ [(k, (c.respond w.st k).1)]⟩)

/-- Modelled from the spec: `ESP_error_check` is declared in `Debug.h`, which is
not among the sources. The spec keeps debug and log output outside the core and
has every collaborator operation report success or fault only, and `WiFi.c`
compares the value of `ESP_error_check(...)` with `ESP_OK` and with the storage
codes: the model is the status code of the wrapped call, unchanged. -/
def ESP_error_check (x : esp_err_t) : esp_err_t := x

/-! ## `WiFi.c` -/

/-- `WiFi.c`, `WiFi_init`, lines 32-144. The run starts with an empty trace. -/
def WiFi_init {σ : Type} (c : Collaborator σ) (s : σ) (mode : wifi_mode_t)
    (config : wifi_config_t) (handlers : event_handlers) : WiFi_return × World σ :=
  let w0 : World σ := ⟨s, []⟩
  -- lines 36-48: first switch on mode
  match (if mode = WIFI_MODE_STA then some wifi_interface_t.WIFI_IF_STA
         else if mode = WIFI_MODE_AP then some wifi_interface_t.WIFI_IF_AP
         else none) with
  | none => (WiFi_return.CORE_WIFI_INVALID_WIFI_MODE_ERR, w0)
  | some interface =>
  -- lines 50-56: storage, with one erase and retry
  let r1 := invoke c w0 Call.nvs_flash_init
  let r2 :=
    if ESP_error_check r1.1 = ESP_ERR_NVS_NO_FREE_PAGES
        ∨ ESP_error_check r1.1 = ESP_ERR_NVS_NEW_VERSION_FOUND then
      -- line 54: the status of the erase is not kept
      invoke c (invoke c r1.2 Call.nvs_flash_erase).2 Call.nvs_flash_init
    else r1
  -- lines 58-61
  if ESP_error_check r2.1 ≠ ESP_OK then (WiFi_return.CORE_WIFI_INIT_ERR, r2.2) else
  -- lines 66-69
  let r3 := invoke c r2.2 Call.esp_netif_init
  if ESP_error_check r3.1 ≠ ESP_OK then (WiFi_return.CORE_WIFI_INIT_ERR, r3.2) else
  -- lines 72-75
  let r4 := invoke c r3.2 Call.esp_event_loop_create_default
  if ESP_error_check r4.1 ≠ ESP_OK then (WiFi_return.CORE_WIFI_INIT_ERR, r4.2) else
  -- lines 78-88: second switch on mode, the returned address is not kept
  match (if mode = WIFI_MODE_AP then
           some (invoke c r4.2 Call.esp_netif_create_default_wifi_ap).2
         else if mode = WIFI_MODE_STA then
           some (invoke c r4.2 Call.esp_netif_create_default_wifi_sta).2
         else none) with
  | none => (WiFi_return.CORE_WIFI_INVALID_WIFI_MODE_ERR, r4.2)
  | some w5 =>
  -- lines 93-97
  let r6 := invoke c w5 Call.esp_wifi_init
  if ESP_error_check r6.1 ≠ ESP_OK then (WiFi_return.CORE_WIFI_INIT_ERR, r6.2) else
  -- lines 102-110
  let r7 :=
    if handlers.WiFi_event_handler ≠ NULL then
      invoke c r6.2 (Call.esp_event_handler_register esp_event_base_t.WIFI_EVENT
        handlers.WiFi_events_to_handle handlers.WiFi_event_handler NULL)
    else (ESP_OK, r6.2)
  if handlers.WiFi_event_handler ≠ NULL ∧ ESP_error_check r7.1 ≠ ESP_OK then
    (WiFi_return.CORE_WIFI_INIT_ERR, r7.2) else
  -- lines 115-123
  let r8 :=
    if handlers.IP_event_handler ≠ NULL then
      invoke c r7.2 (Call.esp_event_handler_register esp_event_base_t.IP_EVENT
        handlers.IP_events_to_handle handlers.IP_event_handler NULL)
    else (ESP_OK, r7.2)
  if handlers.IP_event_handler ≠ NULL ∧ ESP_error_check r8.1 ≠ ESP_OK then
    (WiFi_return.CORE_WIFI_INIT_ERR, r8.2) else
  -- lines 126-129
  let r9 := invoke c r8.2 (Call.esp_wifi_set_mode mode)
  if ESP_error_check r9.1 ≠ ESP_OK then (WiFi_return.CORE_WIFI_INIT_ERR, r9.2) else
  -- lines 132-135
  let r10 := invoke c r9.2 (Call.esp_wifi_set_config interface config)
  if ESP_error_check r10.1 ≠ ESP_OK then (WiFi_return.CORE_WIFI_INIT_ERR, r10.2) else
  -- lines 138-143
  let r11 := invoke c r10.2 Call.esp_wifi_start
  if ESP_error_check r11.1 ≠ ESP_OK then (WiFi_return.CORE_WIFI_INIT_ERR, r11.2) else
  (WiFi_return.CORE_WIFI_OK, r11.2)

/-- `WiFi.c`, `de_init_WiFi`, lines 146-159. The run starts with an empty trace. -/
def de_init_WiFi {σ : Type} (c : Collaborator σ) (s : σ) : WiFi_return × World σ :=
  let w0 : World σ := ⟨s, []⟩
  let r1 := invoke c w0 Call.esp_wifi_stop
  if ESP_error_check r1.1 ≠ ESP_OK then (WiFi_return.CORE_WIFI_DE_INIT_ERR, r1.2) else
  let r2 := invoke c r1.2 Call.esp_wifi_deinit
  if ESP_error_check r2.1 ≠ ESP_OK then (WiFi_return.CORE_WIFI_DE_INIT_ERR, r2.2) else
  (WiFi_return.CORE_WIFI_OK, r2.2)

/-- The calls of a trace, without the answers. -/
def calls (t : List (Call × Int)) : List Call := t.map Prod.fst

/-! ## Straight-line runs

After the first `switch`, `WiFi_init` is a straight line of calls, each either
tested against `ESP_OK` (leave with `CORE_WIFI_INIT_ERR` on a fault) or not
tested. `runSteps` runs such a line; `WiFi_init_eq` states that `WiFi_init` is
the run of the line `WiFi_init_steps`. -/

/-- One step of a straight line: the call, and whether its status is tested. -/
structure Step where
  call : Call
  checked : Bool
  deriving DecidableEq, Repr

/-- Run a straight line from world `w`: stop at the first tested call that does
not report `ESP_OK` (result `false`), or at the end (result `true`). -/
def runSteps {σ : Type} (c : Collaborator σ) : World σ → List Step → Bool × World σ
  | w, [] => (true, w)
  | w, st :: rest =>
    if st.checked = true ∧ (invoke c w st.call).1 ≠ ESP_OK then (false, (invoke c w st.call).2)
    else runSteps c (invoke c w st.call).2 rest

/-- Lines 63-143 of `WiFi.c` as a straight line. -/
def bringUpSteps (mode : wifi_mode_t) (config : wifi_config_t) (handlers : event_handlers) :
    List Step :=
  [⟨Call.esp_netif_init, true⟩, ⟨Call.esp_event_loop_create_default, true⟩,
   ⟨if mode = WIFI_MODE_AP then Call.esp_netif_create_default_wifi_ap
    else Call.esp_netif_create_default_wifi_sta, false⟩,
   ⟨Call.esp_wifi_init, true⟩]
  ++ (if handlers.WiFi_event_handler ≠ NULL then
        [⟨Call.esp_event_handler_register esp_event_base_t.WIFI_EVENT
            handlers.WiFi_events_to_handle handlers.WiFi_event_handler NULL, true⟩]
      else [])
  ++ (if handlers.IP_event_handler ≠ NULL then
        [⟨Call.esp_event_handler_register esp_event_base_t.IP_EVENT
            handlers.IP_events_to_handle handlers.IP_event_handler NULL, true⟩]
      else [])
  ++ [⟨Call.esp_wifi_set_mode mode, true⟩,
      ⟨Call.esp_wifi_set_config
        (if mode = WIFI_MODE_STA then wifi_interface_t.WIFI_IF_STA
         else wifi_interface_t.WIFI_IF_AP) config, true⟩,
      ⟨Call.esp_wifi_start, true⟩]

/-- Lines 50-143 of `WiFi.c` as a straight line, given the answer `first` of the
first `nvs_flash_init`: on one of the two stale-format codes that answer is not
tested against `ESP_OK`, and an untested erase and a tested second
`nvs_flash_init` follow. -/
def WiFi_init_steps (first : esp_err_t) (mode : wifi_mode_t) (config : wifi_config_t)
    (handlers : event_handlers) : List Step :=
  (if first = ESP_ERR_NVS_NO_FREE_PAGES ∨ first = ESP_ERR_NVS_NEW_VERSION_FOUND then
     [⟨Call.nvs_flash_init, false⟩, ⟨Call.nvs_flash_erase, false⟩, ⟨Call.nvs_flash_init, true⟩]
   else [⟨Call.nvs_flash_init, true⟩])
  ++ bringUpSteps mode config handlers

/-- The result of `WiFi_init` after its straight line: `CORE_WIFI_OK` if the line
ran to its end, `CORE_WIFI_INIT_ERR` if it stopped at a fault. -/
def initResult {σ : Type} (out : Bool × World σ) : WiFi_return × World σ :=
  (if out.1 = true then WiFi_return.CORE_WIFI_OK else WiFi_return.CORE_WIFI_INIT_ERR, out.2)

/-! ## What a run leaves in the trace -/

/-- The entries a run of `steps` can add to the trace, with its result `ok`: one
entry per step, in order, stopping right after the first tested step whose answer
is not `ESP_OK` (then `ok = false`), else going to the end (`ok = true`). -/
def validRun : List Step → List (Call × Int) → Bool → Prop
  | [], t, ok => t = [] ∧ ok = true
  | st :: rest, t, ok => ∃ e t', t = (st.call, e) :: t' ∧
      ((st.checked = true ∧ e ≠ ESP_OK) → t' = [] ∧ ok = false) ∧
      (¬ (st.checked = true ∧ e ≠ ESP_OK) → validRun rest t' ok)

/-! ## Reading a trace -/

/-- Is the call an `esp_event_handler_register`? -/
def isRegistration : Call → Bool
  | Call.esp_event_handler_register _ _ _ _ => true
  | _ => false

/-- Is the call an `esp_event_handler_register` for the event base `base`? -/
def isRegistrationFor (base : esp_event_base_t) : Call → Bool
  | Call.esp_event_handler_register b _ _ _ => decide (b = base)
  | _ => false

/-- Is the call one of the three that configure and start the transport
(`esp_wifi_set_mode`, `esp_wifi_set_config`, `esp_wifi_start`)? -/
def isActivation : Call → Bool
  | Call.esp_wifi_set_mode _ => true
  | Call.esp_wifi_set_config _ _ => true
  | Call.esp_wifi_start => true
  | _ => false

/-- Does the call answer with an `esp_err_t`? All do but the two
`esp_netif_create_default_wifi_*`, which answer with an address. -/
def returnsStatus : Call → Bool
  | Call.esp_netif_create_default_wifi_ap => false
  | Call.esp_netif_create_default_wifi_sta => false
  | _ => true

/-- The registrations for one event base among the calls of a trace, in order. -/
def registrations (base : esp_event_base_t) (t : List (Call × Int)) : List Call :=
  (calls t).filter (isRegistrationFor base)

/-! ## Concrete collaborators and arguments -/

/-- A collaborator without state whose every operation succeeds. -/
def healthy : Collaborator Unit where
  respond := fun _ k =>
    match k with
    | Call.esp_netif_create_default_wifi_ap => (0x3FFB0000, ())
    | Call.esp_netif_create_default_wifi_sta => (0x3FFB0000, ())
    | _ => (ESP_OK, ())

/-- A collaborator whose storage has a stale format until it is erased; the state
tells whether the erase has happened. Everything else succeeds. -/
def staleStorage : Collaborator Bool where
  respond := fun erased k =>
    match k with
    | Call.nvs_flash_init => (if erased = true then ESP_OK else ESP_ERR_NVS_NO_FREE_PAGES, erased)
    | Call.nvs_flash_erase => (ESP_OK, true)
    | Call.esp_netif_create_default_wifi_ap => (0x3FFB0000, erased)
    | Call.esp_netif_create_default_wifi_sta => (0x3FFB0000, erased)
    | _ => (ESP_OK, erased)

/-- A collaborator whose first storage preparation reports
`ESP_ERR_NVS_NO_FREE_PAGES`, whose erase reports `ESP_FAIL`, and whose every other
operation succeeds; the state tells whether a preparation was already attempted. -/
def eraseFault : Collaborator Bool where
  respond := fun attempted k =>
    match k with
    | Call.nvs_flash_init =>
      (if attempted = true then ESP_OK else ESP_ERR_NVS_NO_FREE_PAGES, true)
    | Call.nvs_flash_erase => (ESP_FAIL, attempted)
    | Call.esp_netif_create_default_wifi_ap => (0x3FFB0000, attempted)
    | Call.esp_netif_create_default_wifi_sta => (0x3FFB0000, attempted)
    | _ => (ESP_OK, attempted)

/-- A collaborator that cannot stop the transport. -/
def stopFault : Collaborator Unit where
  respond := fun _ k =>
    match k with
    | Call.esp_wifi_stop => (ESP_FAIL, ())
    | _ => (ESP_OK, ())

/-- A collaborator that stops the transport but cannot release it. -/
def releaseFault : Collaborator Unit where
  respond := fun _ k =>
    match k with
    | Call.esp_wifi_deinit => (ESP_FAIL, ())
    | _ => (ESP_OK, ())

/-- The configuration of the scenario: ssid "Net", credential "pass", channel 1,
WPA2, and `MAX_STA_CONN` stations. -/
def netConfig : wifi_config_t :=
  { ssid := "Net", password := "pass", channel := 1, authmode := WIFI_AUTH_WPA2_PSK,
    max_connection := 1 }

/-- No subscription: both handlers are `NULL`. -/
def noSubscriptions : event_handlers :=
  { WiFi_events_to_handle := 0, WiFi_event_handler := NULL,
    IP_events_to_handle := 0, IP_event_handler := NULL }

/-- Both subscriptions, each for any event (`ESP_EVENT_ANY_ID` is `-1`). -/
def bothSubscriptions : event_handlers :=
  { WiFi_events_to_handle := -1, WiFi_event_handler := 0x400D1000,
    IP_events_to_handle := -1, IP_event_handler := 0x400D2000 }

/-! # Theorems -/

/-! ## Basic facts about `invoke` -/

@[simp] theorem invoke_fst {σ : Type} (c : Collaborator σ) (w : World σ) (k : Call) :
    (invoke c w k).1 = (c.respond w.st k).1 := rfl

@[simp] theorem invoke_st {σ : Type} (c : Collaborator σ) (w : World σ) (k : Call) :
    (invoke c w k).2.st = (c.respond w.st k).2 := rfl

@[simp] theorem invoke_trace {σ : Type} (c : Collaborator σ) (w : World σ) (k : Call) :
    (invoke c w k).2.trace = w.trace ++ [(k, (c.respond w.st k).1)] := rfl

theorem runSteps_nil {σ : Type} (c : Collaborator σ) (w : World σ) :
    runSteps c w [] = (true, w) := rfl

theorem runSteps_cons {σ : Type} (c : Collaborator σ) (w : World σ) (st : Step)
    (rest : List Step) :
    runSteps c w (st :: rest) =
      if st.checked = true ∧ (invoke c w st.call).1 ≠ ESP_OK then (false, (invoke c w st.call).2)
      else runSteps c (invoke c w st.call).2 rest := rfl

theorem initResult_nil {σ : Type} (c : Collaborator σ) (w : World σ) :
    initResult (runSteps c w []) = (WiFi_return.CORE_WIFI_OK, w) := rfl

theorem initResult_checked {σ : Type} (c : Collaborator σ) (w : World σ) (k : Call)
    (rest : List Step) :
    initResult (runSteps c w (⟨k, true⟩ :: rest)) =
      if (invoke c w k).1 = ESP_OK then initResult (runSteps c (invoke c w k).2 rest)
      else (WiFi_return.CORE_WIFI_INIT_ERR, (invoke c w k).2) := by
  by_cases h : (c.respond w.st k).1 = ESP_OK <;> simp [runSteps_cons, initResult, h]

theorem initResult_unchecked {σ : Type} (c : Collaborator σ) (w : World σ) (k : Call)
    (rest : List Step) :
    initResult (runSteps c w (⟨k, false⟩ :: rest)) =
      initResult (runSteps c (invoke c w k).2 rest) := by
  simp [runSteps_cons]

/-- For a valid mode, `WiFi_init` is the run of its straight line. -/
theorem WiFi_init_eq {σ : Type} (c : Collaborator σ) (s : σ) (mode : wifi_mode_t)
    (config : wifi_config_t) (handlers : event_handlers)
    (hmode : mode = WIFI_MODE_STA ∨ mode = WIFI_MODE_AP) :
    WiFi_init c s mode config handlers =
      initResult (runSteps c ⟨s, []⟩
        (WiFi_init_steps (c.respond s Call.nvs_flash_init).1 mode config handlers)) := by
  have hne : WIFI_MODE_STA ≠ WIFI_MODE_AP := by decide
  have hne2 : WIFI_MODE_AP ≠ WIFI_MODE_STA := by decide
  rcases hmode with rfl | rfl
  all_goals
    by_cases hst : (c.respond s Call.nvs_flash_init).1 = ESP_ERR_NVS_NO_FREE_PAGES
        ∨ (c.respond s Call.nvs_flash_init).1 = ESP_ERR_NVS_NEW_VERSION_FOUND
      <;> by_cases hw : handlers.WiFi_event_handler = NULL
      <;> by_cases hi : handlers.IP_event_handler = NULL
      <;> simp only [WiFi_init, WiFi_init_steps, bringUpSteps, initResult_checked,
            initResult_unchecked, initResult_nil, invoke_fst,
            ESP_error_check, hst, hw, hi, hne, hne2, List.cons_append, List.nil_append,
            if_true, if_false, ne_eq, not_true_eq_false, not_false_eq_true, ite_not,
            false_and, true_and]

/-! ## General facts about straight-line runs -/

theorem calls_cons (k : Call) (e : Int) (t : List (Call × Int)) :
    calls ((k, e) :: t) = k :: calls t := rfl

theorem calls_nil : calls [] = [] := rfl

/-- A run only adds to the trace, and the calls it adds are a prefix of the line. -/
theorem runSteps_trace {σ : Type} (c : Collaborator σ) (steps : List Step) (w : World σ) :
    ∃ t, (runSteps c w steps).2.trace = w.trace ++ t ∧ calls t <+: steps.map Step.call := by
  induction steps generalizing w with
  | nil => exact ⟨[], by simp [runSteps_nil], by simp [calls_nil]⟩
  | cons st rest ih =>
    rw [runSteps_cons]
    by_cases h : st.checked = true ∧ (invoke c w st.call).1 ≠ ESP_OK
    · rw [if_pos h]
      refine ⟨[(st.call, (c.respond w.st st.call).1)], by simp, ?_⟩
      simp [calls_cons, calls_nil, List.prefix_cons_inj]
    · rw [if_neg h]
      obtain ⟨t, ht, hp⟩ := ih (invoke c w st.call).2
      refine ⟨(st.call, (c.respond w.st st.call).1) :: t, by simp [ht], ?_⟩
      simpa [calls_cons, List.prefix_cons_inj] using hp

/-- A run that reaches the end of its line issued every call of the line, and
every answer it got is `ESP_OK` unless the step is an untested one. -/
theorem runSteps_true {σ : Type} (c : Collaborator σ) (steps : List Step) (w : World σ)
    (h : (runSteps c w steps).1 = true) :
    ∃ t, (runSteps c w steps).2.trace = w.trace ++ t ∧ calls t = steps.map Step.call
      ∧ ∀ k e, (k, e) ∈ t → e = ESP_OK ∨ (⟨k, false⟩ : Step) ∈ steps := by
  induction steps generalizing w with
  | nil => exact ⟨[], by simp [runSteps_nil], by simp [calls_nil], by simp⟩
  | cons st rest ih =>
    rw [runSteps_cons] at h ⊢
    by_cases hc : st.checked = true ∧ (invoke c w st.call).1 ≠ ESP_OK
    · rw [if_pos hc] at h
      exact absurd h (by simp)
    · rw [if_neg hc] at h ⊢
      obtain ⟨t, ht, hcalls, hans⟩ := ih (invoke c w st.call).2 h
      refine ⟨(st.call, (c.respond w.st st.call).1) :: t, by simp [ht], ?_, ?_⟩
      · simp [calls_cons, hcalls]
      · intro k e hmem
        rcases List.mem_cons.1 hmem with heq | hin
        · obtain ⟨rfl, rfl⟩ := Prod.mk.inj heq
          by_cases hchk : st.checked = true
          · left
            by_contra hne
            exact hc ⟨hchk, by simpa using hne⟩
          · right
            rcases st with ⟨k0, b⟩
            simp only [Bool.not_eq_true] at hchk
            subst hchk
            exact List.mem_cons_self _ _
        · rcases hans k e hin with h1 | h2
          · exact Or.inl h1
          · exact Or.inr (List.mem_cons_of_mem _ h2)

/-- When every tested call of the line is answered `ESP_OK` in every state, the run
reaches the end. -/
theorem runSteps_all_ok {σ : Type} (c : Collaborator σ) (steps : List Step) (w : World σ)
    (h : ∀ st ∈ steps, st.checked = true → ∀ s, (c.respond s st.call).1 = ESP_OK) :
    (runSteps c w steps).1 = true := by
  induction steps generalizing w with
  | nil => rfl
  | cons st rest ih =>
    rw [runSteps_cons]
    have hst : ¬ (st.checked = true ∧ (invoke c w st.call).1 ≠ ESP_OK) := by
      rintro ⟨hchk, hne⟩
      exact hne (by simpa using h st (List.mem_cons_self _ _) hchk w.st)
    rw [if_neg hst]
    exact ih _ (fun st' hmem => h st' (List.mem_cons_of_mem _ hmem))

theorem runSteps_valid {σ : Type} (c : Collaborator σ) (steps : List Step) (w : World σ) :
    ∃ t, (runSteps c w steps).2.trace = w.trace ++ t
      ∧ validRun steps t (runSteps c w steps).1 := by
  induction steps generalizing w with
  | nil => exact ⟨[], by simp [runSteps_nil], by simp [validRun, runSteps_nil]⟩
  | cons st rest ih =>
    rw [runSteps_cons]
    by_cases h : st.checked = true ∧ (invoke c w st.call).1 ≠ ESP_OK
    · rw [if_pos h]
      refine ⟨[(st.call, (c.respond w.st st.call).1)], by simp, ?_⟩
      exact ⟨_, [], rfl, fun _ => ⟨rfl, rfl⟩, fun hn => absurd h hn⟩
    · rw [if_neg h]
      obtain ⟨t, ht, hv⟩ := ih (invoke c w st.call).2
      refine ⟨(st.call, (c.respond w.st st.call).1) :: t, by simp [ht], ?_⟩
      exact ⟨_, t, rfl, fun hp => absurd hp h, fun _ => hv⟩

/-- For a valid mode, the trace of `WiFi_init` is a run of its straight line, and
the result tells whether the run reached the end. -/
theorem WiFi_init_valid {σ : Type} (c : Collaborator σ) (s : σ) (mode : wifi_mode_t)
    (config : wifi_config_t) (handlers : event_handlers)
    (hmode : mode = WIFI_MODE_STA ∨ mode = WIFI_MODE_AP) :
    ∃ ok, validRun (WiFi_init_steps (c.respond s Call.nvs_flash_init).1 mode config handlers)
        (WiFi_init c s mode config handlers).2.trace ok
      ∧ (WiFi_init c s mode config handlers).1
          = if ok = true then WiFi_return.CORE_WIFI_OK else WiFi_return.CORE_WIFI_INIT_ERR := by
  rw [WiFi_init_eq c s mode config handlers hmode]
  obtain ⟨t, ht, hv⟩ := runSteps_valid c
    (WiFi_init_steps (c.respond s Call.nvs_flash_init).1 mode config handlers) ⟨s, []⟩
  refine ⟨_, ?_, rfl⟩
  simp only [initResult]
  rw [ht]
  simpa using hv

theorem bringUpSteps_count_nvs_flash_init (mode : wifi_mode_t) (config : wifi_config_t)
    (handlers : event_handlers) :
    ((bringUpSteps mode config handlers).map Step.call).count Call.nvs_flash_init = 0 := by
  simp only [bringUpSteps]
  split_ifs <;> simp

theorem bringUpSteps_count_nvs_flash_erase (mode : wifi_mode_t) (config : wifi_config_t)
    (handlers : event_handlers) :
    ((bringUpSteps mode config handlers).map Step.call).count Call.nvs_flash_erase = 0 := by
  simp only [bringUpSteps]
  split_ifs <;> simp

theorem count_eq_zero_of_prefix {p l : List Call} (k : Call) (hp : p <+: l)
    (h : l.count k = 0) : p.count k = 0 :=
  Nat.eq_zero_of_le_zero (h ▸ hp.sublist.count_le k)

/-- Stale storage format: the run opens with preparation, erase, preparation; what
follows is a prefix of the bring-up line, and is empty with result
`CORE_WIFI_INIT_ERR` when the second preparation is a fault. -/
theorem WiFi_init_stale {σ : Type} (c : Collaborator σ) (s : σ) (mode : wifi_mode_t)
    (config : wifi_config_t) (handlers : event_handlers)
    (hmode : mode = WIFI_MODE_STA ∨ mode = WIFI_MODE_AP)
    (hst : (c.respond s Call.nvs_flash_init).1 = ESP_ERR_NVS_NO_FREE_PAGES
      ∨ (c.respond s Call.nvs_flash_init).1 = ESP_ERR_NVS_NEW_VERSION_FOUND) :
    ∃ e2 e3 t,
      (WiFi_init c s mode config handlers).2.trace
        = (Call.nvs_flash_init, (c.respond s Call.nvs_flash_init).1)
            :: (Call.nvs_flash_erase, e2) :: (Call.nvs_flash_init, e3) :: t
      ∧ calls t <+: (bringUpSteps mode config handlers).map Step.call
      ∧ (e3 ≠ ESP_OK →
          (WiFi_init c s mode config handlers).1 = WiFi_return.CORE_WIFI_INIT_ERR ∧ t = [])
      ∧ (e3 = ESP_OK → ∃ ok, validRun (bringUpSteps mode config handlers) t ok
          ∧ (WiFi_init c s mode config handlers).1
              = if ok = true then WiFi_return.CORE_WIFI_OK
                else WiFi_return.CORE_WIFI_INIT_ERR) := by
  rw [WiFi_init_eq c s mode config handlers hmode]
  have hsteps : WiFi_init_steps (c.respond s Call.nvs_flash_init).1 mode config handlers
      = ⟨Call.nvs_flash_init, false⟩ :: ⟨Call.nvs_flash_erase, false⟩
          :: ⟨Call.nvs_flash_init, true⟩ :: bringUpSteps mode config handlers := by
    simp [WiFi_init_steps, hst]
  rw [hsteps, initResult_unchecked, initResult_unchecked, initResult_checked]
  generalize hw1 : (invoke c ⟨s, []⟩ Call.nvs_flash_init).2 = w1
  have hw1t : w1.trace = [(Call.nvs_flash_init, (c.respond s Call.nvs_flash_init).1)] := by
    rw [← hw1]; simp
  generalize hw2 : (invoke c w1 Call.nvs_flash_erase).2 = w2
  have hw2t : w2.trace = w1.trace ++ [(Call.nvs_flash_erase, (c.respond w1.st Call.nvs_flash_erase).1)] := by
    rw [← hw2]; simp
  generalize hw3 : (invoke c w2 Call.nvs_flash_init).2 = w3
  have hw3t : w3.trace = w2.trace ++ [(Call.nvs_flash_init, (c.respond w2.st Call.nvs_flash_init).1)] := by
    rw [← hw3]; simp
  have he3 : (invoke c w2 Call.nvs_flash_init).1 = (c.respond w2.st Call.nvs_flash_init).1 := rfl
  rw [he3]
  refine ⟨(c.respond w1.st Call.nvs_flash_erase).1, (c.respond w2.st Call.nvs_flash_init).1, ?_⟩
  by_cases h3 : (c.respond w2.st Call.nvs_flash_init).1 = ESP_OK
  · rw [if_pos h3]
    obtain ⟨t, ht, hp⟩ := runSteps_trace c (bringUpSteps mode config handlers) w3
    obtain ⟨t2, ht2, hv⟩ := runSteps_valid c (bringUpSteps mode config handlers) w3
    have htt : t2 = t := List.append_cancel_left (ht2.symm.trans ht)
    subst htt
    refine ⟨t2, ?_, hp, fun hne => absurd h3 hne, fun _ => ⟨_, hv, rfl⟩⟩
    simp only [initResult]
    rw [ht, hw3t, hw2t, hw1t]
    simp
  · rw [if_neg h3]
    refine ⟨[], ?_, List.nil_prefix, fun _ => ⟨rfl, rfl⟩, fun h => absurd h h3⟩
    simp only []
    rw [hw3t, hw2t, hw1t]
    simp

/-- Any other first answer: one preparation; what follows is a prefix of the
bring-up line, and is empty with result `CORE_WIFI_INIT_ERR` when that answer is a
fault. -/
theorem WiFi_init_fresh {σ : Type} (c : Collaborator σ) (s : σ) (mode : wifi_mode_t)
    (config : wifi_config_t) (handlers : event_handlers)
    (hmode : mode = WIFI_MODE_STA ∨ mode = WIFI_MODE_AP)
    (hst : ¬ ((c.respond s Call.nvs_flash_init).1 = ESP_ERR_NVS_NO_FREE_PAGES
      ∨ (c.respond s Call.nvs_flash_init).1 = ESP_ERR_NVS_NEW_VERSION_FOUND)) :
    ∃ t,
      (WiFi_init c s mode config handlers).2.trace
        = (Call.nvs_flash_init, (c.respond s Call.nvs_flash_init).1) :: t
      ∧ calls t <+: (bringUpSteps mode config handlers).map Step.call
      ∧ ((c.respond s Call.nvs_flash_init).1 ≠ ESP_OK →
          (WiFi_init c s mode config handlers).1 = WiFi_return.CORE_WIFI_INIT_ERR ∧ t = [])
      ∧ ((c.respond s Call.nvs_flash_init).1 = ESP_OK →
          ∃ ok, validRun (bringUpSteps mode config handlers) t ok
          ∧ (WiFi_init c s mode config handlers).1
              = if ok = true then WiFi_return.CORE_WIFI_OK
                else WiFi_return.CORE_WIFI_INIT_ERR) := by
  rw [WiFi_init_eq c s mode config handlers hmode]
  have hsteps : WiFi_init_steps (c.respond s Call.nvs_flash_init).1 mode config handlers
      = ⟨Call.nvs_flash_init, true⟩ :: bringUpSteps mode config handlers := by
    simp [WiFi_init_steps, hst]
  rw [hsteps, initResult_checked]
  generalize hw1 : (invoke c ⟨s, []⟩ Call.nvs_flash_init).2 = w1
  have hw1t : w1.trace = [(Call.nvs_flash_init, (c.respond s Call.nvs_flash_init).1)] := by
    rw [← hw1]; simp
  have he1 : (invoke c ⟨s, []⟩ Call.nvs_flash_init).1 = (c.respond s Call.nvs_flash_init).1 := rfl
  rw [he1]
  by_cases h1 : (c.respond s Call.nvs_flash_init).1 = ESP_OK
  · rw [if_pos h1]
    obtain ⟨t, ht, hp⟩ := runSteps_trace c (bringUpSteps mode config handlers) w1
    obtain ⟨t2, ht2, hv⟩ := runSteps_valid c (bringUpSteps mode config handlers) w1
    have htt : t2 = t := List.append_cancel_left (ht2.symm.trans ht)
    subst htt
    refine ⟨t2, ?_, hp, fun hne => absurd h1 hne, fun _ => ⟨_, hv, rfl⟩⟩
    simp only [initResult]
    rw [ht, hw1t]
    simp
  · rw [if_neg h1]
    refine ⟨[], ?_, List.nil_prefix, fun _ => ⟨rfl, rfl⟩, fun h => absurd h h1⟩
    simp only []
    rw [hw1t]

/-! ## Invalid mode -/

theorem WiFi_init_of_invalid {σ : Type} (c : Collaborator σ) (s : σ) (mode : wifi_mode_t)
    (config : wifi_config_t) (handlers : event_handlers)
    (hmode : ¬ (mode = WIFI_MODE_STA ∨ mode = WIFI_MODE_AP)) :
    WiFi_init c s mode config handlers
      = (WiFi_return.CORE_WIFI_INVALID_WIFI_MODE_ERR, ⟨s, []⟩) := by
  have hsta : mode ≠ WIFI_MODE_STA := fun h => hmode (Or.inl h)
  have hap : mode ≠ WIFI_MODE_AP := fun h => hmode (Or.inr h)
  simp [WiFi_init, hsta, hap]

/-- C1. For every mode that is neither `WIFI_MODE_STA` nor `WIFI_MODE_AP`, and
every config, handlers and collaborator, `WiFi_init` returns
`CORE_WIFI_INVALID_WIFI_MODE_ERR`, issues no call at all (the trace is empty) and
leaves the collaborator in the state it was in. -/
theorem invalid_mode_no_side_effect {σ : Type} (c : Collaborator σ) (s : σ)
    (mode : wifi_mode_t) (config : wifi_config_t) (handlers : event_handlers)
    (hsta : mode ≠ WIFI_MODE_STA) (hap : mode ≠ WIFI_MODE_AP) :
    (WiFi_init c s mode config handlers).1 = WiFi_return.CORE_WIFI_INVALID_WIFI_MODE_ERR
      ∧ (WiFi_init c s mode config handlers).2.trace = []
      ∧ (WiFi_init c s mode config handlers).2.st = s := by
  simp [WiFi_init, hsta, hap]

/-- C1, at the mode `WIFI_MODE_APSTA` with a stale storage: nothing is called. -/
theorem invalid_mode_no_side_effect_witness :
    WIFI_MODE_APSTA ≠ WIFI_MODE_STA ∧ WIFI_MODE_APSTA ≠ WIFI_MODE_AP
      ∧ (WiFi_init staleStorage false WIFI_MODE_APSTA netConfig bothSubscriptions).1
          = WiFi_return.CORE_WIFI_INVALID_WIFI_MODE_ERR
      ∧ (WiFi_init staleStorage false WIFI_MODE_APSTA netConfig bothSubscriptions).2.trace = []
      ∧ (WiFi_init staleStorage false WIFI_MODE_APSTA netConfig bothSubscriptions).2.st = false :=
  ⟨by decide, by decide,
    invalid_mode_no_side_effect staleStorage false WIFI_MODE_APSTA netConfig bothSubscriptions
      (by decide) (by decide)⟩

/-- C2. For a valid mode and every collaborator: storage preparation is issued at
most twice and erase at most once. When the first preparation reports
`ESP_ERR_NVS_NO_FREE_PAGES` or `ESP_ERR_NVS_NEW_VERSION_FOUND`, the run opens with
preparation, erase, preparation, with exactly two preparations and one erase, and
if the retried preparation does not report `ESP_OK` the run returns
`CORE_WIFI_INIT_ERR` having issued those three calls only. When the first
preparation reports anything else, there is one preparation and no erase, and if
it is a fault the run returns `CORE_WIFI_INIT_ERR` having issued that call only. -/
theorem storage_erase_and_retry_once {σ : Type} (c : Collaborator σ) (s : σ) (mode : wifi_mode_t)
    (config : wifi_config_t) (handlers : event_handlers)
    (hmode : mode = WIFI_MODE_STA ∨ mode = WIFI_MODE_AP) :
    ((calls (WiFi_init c s mode config handlers).2.trace).count Call.nvs_flash_init ≤ 2
      ∧ (calls (WiFi_init c s mode config handlers).2.trace).count Call.nvs_flash_erase ≤ 1)
    ∧ (((c.respond s Call.nvs_flash_init).1 = ESP_ERR_NVS_NO_FREE_PAGES
          ∨ (c.respond s Call.nvs_flash_init).1 = ESP_ERR_NVS_NEW_VERSION_FOUND) →
        (calls (WiFi_init c s mode config handlers).2.trace).take 3
            = [Call.nvs_flash_init, Call.nvs_flash_erase, Call.nvs_flash_init]
        ∧ (calls (WiFi_init c s mode config handlers).2.trace).count Call.nvs_flash_init = 2
        ∧ (calls (WiFi_init c s mode config handlers).2.trace).count Call.nvs_flash_erase = 1
        ∧ ∀ e, (WiFi_init c s mode config handlers).2.trace.get? 2
              = some (Call.nvs_flash_init, e) →
            e ≠ ESP_OK →
            (WiFi_init c s mode config handlers).1 = WiFi_return.CORE_WIFI_INIT_ERR
            ∧ calls (WiFi_init c s mode config handlers).2.trace
                = [Call.nvs_flash_init, Call.nvs_flash_erase, Call.nvs_flash_init])
    ∧ (¬ ((c.respond s Call.nvs_flash_init).1 = ESP_ERR_NVS_NO_FREE_PAGES
          ∨ (c.respond s Call.nvs_flash_init).1 = ESP_ERR_NVS_NEW_VERSION_FOUND) →
        (calls (WiFi_init c s mode config handlers).2.trace).count Call.nvs_flash_init = 1
        ∧ (calls (WiFi_init c s mode config handlers).2.trace).count Call.nvs_flash_erase = 0
        ∧ ((c.respond s Call.nvs_flash_init).1 ≠ ESP_OK →
            (WiFi_init c s mode config handlers).1 = WiFi_return.CORE_WIFI_INIT_ERR
            ∧ (WiFi_init c s mode config handlers).2.trace
                = [(Call.nvs_flash_init, (c.respond s Call.nvs_flash_init).1)])) := by
  have hstale : ((c.respond s Call.nvs_flash_init).1 = ESP_ERR_NVS_NO_FREE_PAGES
          ∨ (c.respond s Call.nvs_flash_init).1 = ESP_ERR_NVS_NEW_VERSION_FOUND) →
        (calls (WiFi_init c s mode config handlers).2.trace).take 3
            = [Call.nvs_flash_init, Call.nvs_flash_erase, Call.nvs_flash_init]
        ∧ (calls (WiFi_init c s mode config handlers).2.trace).count Call.nvs_flash_init = 2
        ∧ (calls (WiFi_init c s mode config handlers).2.trace).count Call.nvs_flash_erase = 1
        ∧ ∀ e, (WiFi_init c s mode config handlers).2.trace.get? 2
              = some (Call.nvs_flash_init, e) →
            e ≠ ESP_OK →
            (WiFi_init c s mode config handlers).1 = WiFi_return.CORE_WIFI_INIT_ERR
            ∧ calls (WiFi_init c s mode config handlers).2.trace
                = [Call.nvs_flash_init, Call.nvs_flash_erase, Call.nvs_flash_init] := by
    intro hst
    obtain ⟨e2, e3, t, ht, hp, hfail, -⟩ := WiFi_init_stale c s mode config handlers hmode hst
    have h0 := count_eq_zero_of_prefix Call.nvs_flash_init hp
      (bringUpSteps_count_nvs_flash_init mode config handlers)
    have h1 := count_eq_zero_of_prefix Call.nvs_flash_erase hp
      (bringUpSteps_count_nvs_flash_erase mode config handlers)
    rw [ht]
    refine ⟨by simp [calls_cons], by simp [calls_cons, h0], by simp [calls_cons, h1], ?_⟩
    intro e he hne
    have : e3 = e := by simpa using he
    subst this
    obtain ⟨hr, hnil⟩ := hfail hne
    exact ⟨hr, by simp [hnil, calls_cons, calls_nil]⟩
  have hfresh : ¬ ((c.respond s Call.nvs_flash_init).1 = ESP_ERR_NVS_NO_FREE_PAGES
          ∨ (c.respond s Call.nvs_flash_init).1 = ESP_ERR_NVS_NEW_VERSION_FOUND) →
        (calls (WiFi_init c s mode config handlers).2.trace).count Call.nvs_flash_init = 1
        ∧ (calls (WiFi_init c s mode config handlers).2.trace).count Call.nvs_flash_erase = 0
        ∧ ((c.respond s Call.nvs_flash_init).1 ≠ ESP_OK →
            (WiFi_init c s mode config handlers).1 = WiFi_return.CORE_WIFI_INIT_ERR
            ∧ (WiFi_init c s mode config handlers).2.trace
                = [(Call.nvs_flash_init, (c.respond s Call.nvs_flash_init).1)]) := by
    intro hst
    obtain ⟨t, ht, hp, hfail, -⟩ := WiFi_init_fresh c s mode config handlers hmode hst
    have h0 := count_eq_zero_of_prefix Call.nvs_flash_init hp
      (bringUpSteps_count_nvs_flash_init mode config handlers)
    have h1 := count_eq_zero_of_prefix Call.nvs_flash_erase hp
      (bringUpSteps_count_nvs_flash_erase mode config handlers)
    rw [ht]
    refine ⟨by simp [calls_cons, h0], by simp [calls_cons, h1], ?_⟩
    intro hne
    obtain ⟨hr, hnil⟩ := hfail hne
    exact ⟨hr, by simp [hnil]⟩
  refine ⟨?_, hstale, hfresh⟩
  by_cases hst : ((c.respond s Call.nvs_flash_init).1 = ESP_ERR_NVS_NO_FREE_PAGES
          ∨ (c.respond s Call.nvs_flash_init).1 = ESP_ERR_NVS_NEW_VERSION_FOUND)
  · obtain ⟨-, h2, h3, -⟩ := hstale hst
    exact ⟨h2.le, h3.le⟩
  · obtain ⟨h2, h3, -⟩ := hfresh hst
    exact ⟨by omega, by omega⟩

/-- C2, at a storage that is stale until erased: the run opens with preparation,
erase, preparation, and issues two preparations and one erase in all. -/
theorem storage_erase_and_retry_once_witness :
    (WIFI_MODE_AP = WIFI_MODE_STA ∨ WIFI_MODE_AP = WIFI_MODE_AP)
      ∧ (staleStorage.respond false Call.nvs_flash_init).1 = ESP_ERR_NVS_NO_FREE_PAGES
      ∧ (calls (WiFi_init staleStorage false WIFI_MODE_AP netConfig noSubscriptions).2.trace).take 3
          = [Call.nvs_flash_init, Call.nvs_flash_erase, Call.nvs_flash_init]
      ∧ (calls (WiFi_init staleStorage false WIFI_MODE_AP netConfig noSubscriptions).2.trace).count
          Call.nvs_flash_init = 2
      ∧ (calls (WiFi_init staleStorage false WIFI_MODE_AP netConfig noSubscriptions).2.trace).count
          Call.nvs_flash_erase = 1 :=
  have h := (storage_erase_and_retry_once staleStorage false WIFI_MODE_AP netConfig
    noSubscriptions (Or.inr rfl)).2.1 (Or.inl rfl)
  ⟨Or.inr rfl, rfl, h.1, h.2.1, h.2.2.1⟩

/-! ## Faults and the result of `WiFi_init` -/

/-- C3, at the failing input: the first storage preparation reports
`ESP_ERR_NVS_NO_FREE_PAGES`, the erase reports `ESP_FAIL`, everything else
succeeds. `WiFi_init` goes on after the failed erase and returns `CORE_WIFI_OK`. -/
theorem erase_fault_is_masked :
    (WiFi_init eraseFault false WIFI_MODE_AP netConfig noSubscriptions).1
        = WiFi_return.CORE_WIFI_OK
      ∧ (WiFi_init eraseFault false WIFI_MODE_AP netConfig noSubscriptions).2.trace
        = [(Call.nvs_flash_init, ESP_ERR_NVS_NO_FREE_PAGES),
           (Call.nvs_flash_erase, ESP_FAIL),
           (Call.nvs_flash_init, ESP_OK),
           (Call.esp_netif_init, ESP_OK),
           (Call.esp_event_loop_create_default, ESP_OK),
           (Call.esp_netif_create_default_wifi_ap, 0x3FFB0000),
           (Call.esp_wifi_init, ESP_OK),
           (Call.esp_wifi_set_mode WIFI_MODE_AP, ESP_OK),
           (Call.esp_wifi_set_config wifi_interface_t.WIFI_IF_AP netConfig, ESP_OK),
           (Call.esp_wifi_start, ESP_OK)] := by
  constructor <;> rfl

/-! ## `de_init_WiFi` -/

/-- C7. For every collaborator, `de_init_WiFi` calls stop first. If stop is a
fault it returns `CORE_WIFI_DE_INIT_ERR` and stop is its only call (no release).
If stop succeeds, release is the second and last call, and a release fault gives
`CORE_WIFI_DE_INIT_ERR`. It returns `CORE_WIFI_OK` exactly when both succeed. -/
theorem de_init_stop_then_release {σ : Type} (c : Collaborator σ) (s : σ) :
    (∃ rest, (de_init_WiFi c s).2.trace
        = (Call.esp_wifi_stop, (c.respond s Call.esp_wifi_stop).1) :: rest)
    ∧ ((c.respond s Call.esp_wifi_stop).1 ≠ ESP_OK →
        (de_init_WiFi c s).1 = WiFi_return.CORE_WIFI_DE_INIT_ERR
        ∧ (de_init_WiFi c s).2.trace
            = [(Call.esp_wifi_stop, (c.respond s Call.esp_wifi_stop).1)])
    ∧ ((c.respond s Call.esp_wifi_stop).1 = ESP_OK →
        (de_init_WiFi c s).2.trace
            = [(Call.esp_wifi_stop, ESP_OK),
               (Call.esp_wifi_deinit,
                 (c.respond (c.respond s Call.esp_wifi_stop).2 Call.esp_wifi_deinit).1)]
        ∧ ((c.respond (c.respond s Call.esp_wifi_stop).2 Call.esp_wifi_deinit).1 ≠ ESP_OK →
            (de_init_WiFi c s).1 = WiFi_return.CORE_WIFI_DE_INIT_ERR))
    ∧ ((de_init_WiFi c s).1 = WiFi_return.CORE_WIFI_OK ↔
        (c.respond s Call.esp_wifi_stop).1 = ESP_OK
        ∧ (c.respond (c.respond s Call.esp_wifi_stop).2 Call.esp_wifi_deinit).1 = ESP_OK) := by
  by_cases h1 : (c.respond s Call.esp_wifi_stop).1 = ESP_OK
  · by_cases h2 : (c.respond (c.respond s Call.esp_wifi_stop).2 Call.esp_wifi_deinit).1 = ESP_OK
    · simp [de_init_WiFi, ESP_error_check, h1, h2]
    · simp [de_init_WiFi, ESP_error_check, h1, h2]
  · simp [de_init_WiFi, ESP_error_check, h1]

/-- C8, refuted: a stop fault and a release fault after a successful stop give the
same result. -/
theorem de_init_same_result_for_both_faults :
    (stopFault.respond () Call.esp_wifi_stop).1 ≠ ESP_OK
      ∧ (releaseFault.respond () Call.esp_wifi_stop).1 = ESP_OK
      ∧ (releaseFault.respond (releaseFault.respond () Call.esp_wifi_stop).2
            Call.esp_wifi_deinit).1 ≠ ESP_OK
      ∧ (de_init_WiFi stopFault ()).1 = (de_init_WiFi releaseFault ()).1 := by
  refine ⟨by decide, by decide, by decide, by rfl⟩

/-- C8, amended. When stop is a fault, and when stop succeeds and release is a
fault, `de_init_WiFi` returns the same `CORE_WIFI_DE_INIT_ERR`: the result does
not tell the two causes apart. Only the calls issued differ: stop alone in the
first case, stop then release in the second. -/
theorem de_init_one_error_code {σ τ : Type} (c1 : Collaborator σ) (s1 : σ)
    (c2 : Collaborator τ) (s2 : τ)
    (hstop : (c1.respond s1 Call.esp_wifi_stop).1 ≠ ESP_OK)
    (hstopped : (c2.respond s2 Call.esp_wifi_stop).1 = ESP_OK)
    (hrelease : (c2.respond (c2.respond s2 Call.esp_wifi_stop).2 Call.esp_wifi_deinit).1
      ≠ ESP_OK) :
    (de_init_WiFi c1 s1).1 = WiFi_return.CORE_WIFI_DE_INIT_ERR
      ∧ (de_init_WiFi c2 s2).1 = WiFi_return.CORE_WIFI_DE_INIT_ERR
      ∧ calls (de_init_WiFi c1 s1).2.trace = [Call.esp_wifi_stop]
      ∧ calls (de_init_WiFi c2 s2).2.trace = [Call.esp_wifi_stop, Call.esp_wifi_deinit] := by
  simp [de_init_WiFi, ESP_error_check, hstop, hstopped, hrelease, calls]

/-- C8, amended, at a collaborator that cannot stop and one that cannot release. -/
theorem de_init_one_error_code_witness :
    (stopFault.respond () Call.esp_wifi_stop).1 ≠ ESP_OK
      ∧ (releaseFault.respond () Call.esp_wifi_stop).1 = ESP_OK
      ∧ (releaseFault.respond (releaseFault.respond () Call.esp_wifi_stop).2
            Call.esp_wifi_deinit).1 ≠ ESP_OK
      ∧ (de_init_WiFi stopFault ()).1 = WiFi_return.CORE_WIFI_DE_INIT_ERR
      ∧ (de_init_WiFi releaseFault ()).1 = WiFi_return.CORE_WIFI_DE_INIT_ERR
      ∧ calls (de_init_WiFi stopFault ()).2.trace = [Call.esp_wifi_stop]
      ∧ calls (de_init_WiFi releaseFault ()).2.trace
          = [Call.esp_wifi_stop, Call.esp_wifi_deinit] :=
  ⟨by decide, by decide, by decide,
    de_init_one_error_code stopFault () releaseFault () (by decide) (by decide) (by decide)⟩

/-! ## The calls of `WiFi_init` and their order -/

/-- For a valid mode, the calls of `WiFi_init` are the first calls of its line. -/
theorem WiFi_init_calls_initial {σ : Type} (c : Collaborator σ) (s : σ) (mode : wifi_mode_t)
    (config : wifi_config_t) (handlers : event_handlers)
    (hmode : mode = WIFI_MODE_STA ∨ mode = WIFI_MODE_AP) :
    calls (WiFi_init c s mode config handlers).2.trace
      <+: (WiFi_init_steps (c.respond s Call.nvs_flash_init).1 mode config handlers).map
            Step.call := by
  rw [WiFi_init_eq c s mode config handlers hmode]
  obtain ⟨t, ht, hp⟩ := runSteps_trace c
    (WiFi_init_steps (c.respond s Call.nvs_flash_init).1 mode config handlers) ⟨s, []⟩
  simp only [initResult]
  rw [ht]
  simpa using hp

/-- A list made of a part without configuring or starting call followed by a part
without registration has no registration after a configuring or starting call. -/
theorem pairwise_of_two_parts (A B : List Call)
    (hA : ∀ a ∈ A, isActivation a = false) (hB : ∀ b ∈ B, isRegistration b = false) :
    List.Pairwise (fun a b => ¬ (isActivation a = true ∧ isRegistration b = true)) (A ++ B) := by
  rw [List.pairwise_append]
  refine ⟨?_, ?_, ?_⟩
  · exact List.pairwise_of_forall_mem_list (fun a ha b _ h => by simp [hA a ha] at h)
  · exact List.pairwise_of_forall_mem_list (fun a _ b hb h => by simp [hB b hb] at h)
  · exact fun a ha b _ h => by simp [hA a ha] at h

/-- In the line of `WiFi_init`, no registration comes after a call that configures
or starts the transport. -/
theorem WiFi_init_steps_ordered (first : esp_err_t) (mode : wifi_mode_t)
    (config : wifi_config_t) (handlers : event_handlers) :
    List.Pairwise (fun a b => ¬ (isActivation a = true ∧ isRegistration b = true))
      ((WiFi_init_steps first mode config handlers).map Step.call) := by
  have hsplit : (WiFi_init_steps first mode config handlers).map Step.call
      = ((if first = ESP_ERR_NVS_NO_FREE_PAGES ∨ first = ESP_ERR_NVS_NEW_VERSION_FOUND then
            [Call.nvs_flash_init, Call.nvs_flash_erase, Call.nvs_flash_init]
          else [Call.nvs_flash_init])
          ++ [Call.esp_netif_init, Call.esp_event_loop_create_default,
              if mode = WIFI_MODE_AP then Call.esp_netif_create_default_wifi_ap
              else Call.esp_netif_create_default_wifi_sta,
              Call.esp_wifi_init]
          ++ (if handlers.WiFi_event_handler ≠ NULL then
                [Call.esp_event_handler_register esp_event_base_t.WIFI_EVENT
                  handlers.WiFi_events_to_handle handlers.WiFi_event_handler NULL]
              else [])
          ++ (if handlers.IP_event_handler ≠ NULL then
                [Call.esp_event_handler_register esp_event_base_t.IP_EVENT
                  handlers.IP_events_to_handle handlers.IP_event_handler NULL]
              else []))
        ++ [Call.esp_wifi_set_mode mode,
            Call.esp_wifi_set_config
              (if mode = WIFI_MODE_STA then wifi_interface_t.WIFI_IF_STA
               else wifi_interface_t.WIFI_IF_AP) config,
            Call.esp_wifi_start] := by
    simp only [WiFi_init_steps, bringUpSteps]
    split_ifs <;> rfl
  rw [hsplit]
  apply pairwise_of_two_parts
  · intro a ha
    simp only [List.mem_append] at ha
    rcases ha with ((ha | ha) | ha) | ha
    · split_ifs at ha <;> simp at ha <;> rcases ha with rfl | rfl | rfl <;> rfl
    · simp at ha
      rcases ha with rfl | rfl | rfl | rfl
      · rfl
      · rfl
      · split_ifs <;> rfl
      · rfl
    · split_ifs at ha <;> simp at ha
      subst ha
      rfl
    · split_ifs at ha <;> simp at ha
      subst ha
      rfl
  · intro b hb
    simp at hb
    rcases hb with rfl | rfl | rfl <;> rfl

/-- C5. In every trace of `WiFi_init`, whatever the mode, config, handlers and
collaborator: a registration call at position `i` and a call that configures or
starts the transport (`esp_wifi_set_mode`, `esp_wifi_set_config`,
`esp_wifi_start`) at position `j` satisfy `i < j`. -/
theorem registration_before_activation {σ : Type} (c : Collaborator σ) (s : σ)
    (mode : wifi_mode_t) (config : wifi_config_t) (handlers : event_handlers)
    (i j : Nat) (a b : Call)
    (ha : (calls (WiFi_init c s mode config handlers).2.trace)[i]? = some a)
    (hb : (calls (WiFi_init c s mode config handlers).2.trace)[j]? = some b)
    (hreg : isRegistration a = true) (hact : isActivation b = true) : i < j := by
  by_cases hmode : mode = WIFI_MODE_STA ∨ mode = WIFI_MODE_AP
  · have hpw : List.Pairwise (fun a b => ¬ (isActivation a = true ∧ isRegistration b = true))
        (calls (WiFi_init c s mode config handlers).2.trace) :=
      List.Pairwise.sublist (WiFi_init_calls_initial c s mode config handlers hmode).sublist
        (WiFi_init_steps_ordered _ mode config handlers)
    generalize calls (WiFi_init c s mode config handlers).2.trace = l at ha hb hpw
    obtain ⟨hi, hia⟩ := List.getElem?_eq_some_iff.1 ha
    obtain ⟨hj, hjb⟩ := List.getElem?_eq_some_iff.1 hb
    rcases Nat.lt_trichotomy i j with hlt | heq | hgt
    · exact hlt
    · exfalso
      subst heq
      rw [hia] at hjb
      subst hjb
      cases a <;> simp [isRegistration, isActivation] at hreg hact
    · exfalso
      have h := List.pairwise_iff_getElem.1 hpw j i hj hi hgt
      rw [hia, hjb] at h
      exact h ⟨hact, hreg⟩
  · rw [WiFi_init_of_invalid c s mode config handlers hmode] at ha
    simp [calls] at ha

/-- C5, at a run with both handlers that reaches the end: the registration for
`WIFI_EVENT` is at position 5 and `esp_wifi_set_mode` at position 7. -/
theorem registration_before_activation_witness :
    (calls (WiFi_init healthy () WIFI_MODE_AP netConfig bothSubscriptions).2.trace)[5]?
        = some (Call.esp_event_handler_register esp_event_base_t.WIFI_EVENT (-1) 0x400D1000 NULL)
      ∧ (calls (WiFi_init healthy () WIFI_MODE_AP netConfig bothSubscriptions).2.trace)[7]?
        = some (Call.esp_wifi_set_mode WIFI_MODE_AP)
      ∧ 5 < 7 :=
  ⟨rfl, rfl,
    registration_before_activation healthy () WIFI_MODE_AP netConfig bothSubscriptions 5 7
      (Call.esp_event_handler_register esp_event_base_t.WIFI_EVENT (-1) 0x400D1000 NULL)
      (Call.esp_wifi_set_mode WIFI_MODE_AP) rfl rfl rfl rfl⟩

/-! ## Registration of the event handlers -/

/-- Both subscriptions on a collaborator that succeeds: one registration for each
category, with the caller's mask and handler. -/
theorem registrations_of_both_subscriptions :
    (WiFi_init healthy () WIFI_MODE_STA netConfig bothSubscriptions).2.trace[4]?
        = some (Call.esp_wifi_init, ESP_OK)
      ∧ registrations esp_event_base_t.WIFI_EVENT
          (WiFi_init healthy () WIFI_MODE_STA netConfig bothSubscriptions).2.trace
        = [Call.esp_event_handler_register esp_event_base_t.WIFI_EVENT (-1) 0x400D1000 NULL]
      ∧ registrations esp_event_base_t.IP_EVENT
          (WiFi_init healthy () WIFI_MODE_STA netConfig bothSubscriptions).2.trace
        = [Call.esp_event_handler_register esp_event_base_t.IP_EVENT (-1) 0x400D2000 NULL] :=
  ⟨rfl, rfl, rfl⟩

/-! ## The success scenario -/

/-- Every tested step of the line of `WiFi_init` is a call that answers with a
status. -/
theorem WiFi_init_steps_returnsStatus (first : esp_err_t) (mode : wifi_mode_t)
    (config : wifi_config_t) (handlers : event_handlers) (st : Step)
    (hmem : st ∈ WiFi_init_steps first mode config handlers) (hchk : st.checked = true) :
    returnsStatus st.call = true := by
  simp only [WiFi_init_steps, bringUpSteps, List.mem_append] at hmem
  rcases hmem with hmem | ((hmem | hmem) | hmem) | hmem
  · split_ifs at hmem <;> simp at hmem <;> rcases hmem with rfl | rfl | rfl <;> rfl
  · simp at hmem
    rcases hmem with rfl | rfl | rfl | rfl <;> first | rfl | simp at hchk
  · split_ifs at hmem <;> simp at hmem
    subst hmem
    rfl
  · split_ifs at hmem <;> simp at hmem
    subst hmem
    rfl
  · simp at hmem
    rcases hmem with rfl | rfl | rfl <;> rfl

/-- With a valid mode and a collaborator whose every status-reporting operation
succeeds in every state, the line of `WiFi_init` runs to its end. -/
theorem WiFi_init_steps_all_ok {σ : Type} (c : Collaborator σ) (s : σ) (mode : wifi_mode_t)
    (config : wifi_config_t) (handlers : event_handlers)
    (hok : ∀ s k, returnsStatus k = true → (c.respond s k).1 = ESP_OK) :
    (runSteps c ⟨s, []⟩
      (WiFi_init_steps (c.respond s Call.nvs_flash_init).1 mode config handlers)).1 = true :=
  runSteps_all_ok c _ _ (fun st hmem hchk s' =>
    hok s' st.call (WiFi_init_steps_returnsStatus _ mode config handlers st hmem hchk))

theorem WiFi_init_all_ok {σ : Type} (c : Collaborator σ) (s : σ) (mode : wifi_mode_t)
    (config : wifi_config_t) (handlers : event_handlers)
    (hmode : mode = WIFI_MODE_STA ∨ mode = WIFI_MODE_AP)
    (hok : ∀ s k, returnsStatus k = true → (c.respond s k).1 = ESP_OK) :
    (WiFi_init c s mode config handlers).1 = WiFi_return.CORE_WIFI_OK := by
  rw [WiFi_init_eq c s mode config handlers hmode]
  simp [initResult, WiFi_init_steps_all_ok c s mode config handlers hok]

theorem de_init_WiFi_all_ok {σ : Type} (c : Collaborator σ) (s : σ)
    (hok : ∀ s k, returnsStatus k = true → (c.respond s k).1 = ESP_OK) :
    (de_init_WiFi c s).1 = WiFi_return.CORE_WIFI_OK
      ∧ calls (de_init_WiFi c s).2.trace = [Call.esp_wifi_stop, Call.esp_wifi_deinit] := by
  have hstop : ∀ s', (c.respond s' Call.esp_wifi_stop).1 = ESP_OK := fun s' => hok s' _ rfl
  have hdeinit : ∀ s', (c.respond s' Call.esp_wifi_deinit).1 = ESP_OK := fun s' => hok s' _ rfl
  simp [de_init_WiFi, ESP_error_check, hstop, hdeinit, calls]

/-- C4. For a valid mode and a collaborator whose every status-reporting operation
succeeds in every state: `WiFi_init` returns `CORE_WIFI_OK`; its calls are storage
preparation, network-stack init, event-loop creation, creation of the default
interface, transport init, the registrations asked for, and at the end
`esp_wifi_set_mode` with the mode, `esp_wifi_set_config` on the interface of the
mode (`WIFI_IF_AP` for `WIFI_MODE_AP`, `WIFI_IF_STA` for `WIFI_MODE_STA`) with the
caller's config, and `esp_wifi_start`. A `de_init_WiFi` right after, from the state
the collaborator was left in, returns `CORE_WIFI_OK` after calling stop and then
release. -/
theorem success_scenario {σ : Type} (c : Collaborator σ) (s : σ) (mode : wifi_mode_t)
    (config : wifi_config_t) (handlers : event_handlers)
    (hmode : mode = WIFI_MODE_STA ∨ mode = WIFI_MODE_AP)
    (hok : ∀ s k, returnsStatus k = true → (c.respond s k).1 = ESP_OK) :
    (WiFi_init c s mode config handlers).1 = WiFi_return.CORE_WIFI_OK
    ∧ calls (WiFi_init c s mode config handlers).2.trace
        = [Call.nvs_flash_init, Call.esp_netif_init, Call.esp_event_loop_create_default,
           if mode = WIFI_MODE_AP then Call.esp_netif_create_default_wifi_ap
           else Call.esp_netif_create_default_wifi_sta,
           Call.esp_wifi_init]
          ++ (if handlers.WiFi_event_handler ≠ NULL then
                [Call.esp_event_handler_register esp_event_base_t.WIFI_EVENT
                  handlers.WiFi_events_to_handle handlers.WiFi_event_handler NULL]
              else [])
          ++ (if handlers.IP_event_handler ≠ NULL then
                [Call.esp_event_handler_register esp_event_base_t.IP_EVENT
                  handlers.IP_events_to_handle handlers.IP_event_handler NULL]
              else [])
          ++ [Call.esp_wifi_set_mode mode,
              Call.esp_wifi_set_config
                (if mode = WIFI_MODE_AP then wifi_interface_t.WIFI_IF_AP
                 else wifi_interface_t.WIFI_IF_STA) config,
              Call.esp_wifi_start]
    ∧ (de_init_WiFi c (WiFi_init c s mode config handlers).2.st).1 = WiFi_return.CORE_WIFI_OK
    ∧ calls (de_init_WiFi c (WiFi_init c s mode config handlers).2.st).2.trace
        = [Call.esp_wifi_stop, Call.esp_wifi_deinit] := by
  have hfirst : (c.respond s Call.nvs_flash_init).1 = ESP_OK := hok s _ rfl
  have hrun := WiFi_init_steps_all_ok c s mode config handlers hok
  obtain ⟨t, ht, hcalls, -⟩ := runSteps_true c _ _ hrun
  refine ⟨WiFi_init_all_ok c s mode config handlers hmode hok, ?_,
    (de_init_WiFi_all_ok c _ hok).1, (de_init_WiFi_all_ok c _ hok).2⟩
  rw [WiFi_init_eq c s mode config handlers hmode]
  simp only [initResult]
  rw [ht]
  simp only [List.nil_append, hcalls, hfirst]
  have hne : WIFI_MODE_STA ≠ WIFI_MODE_AP := by decide
  have hne2 : WIFI_MODE_AP ≠ WIFI_MODE_STA := by decide
  have h1 : ESP_OK ≠ ESP_ERR_NVS_NO_FREE_PAGES := by decide
  have h2 : ESP_OK ≠ ESP_ERR_NVS_NEW_VERSION_FOUND := by decide
  rcases hmode with rfl | rfl <;>
    simp only [WiFi_init_steps, bringUpSteps, h1, h2, hne, hne2, or_self, if_false, if_true] <;>
    split_ifs <;> rfl

/-- The collaborator `healthy` answers `ESP_OK` to every status-reporting call. -/
theorem healthy_succeeds (s : Unit) (k : Call) (hk : returnsStatus k = true) :
    (healthy.respond s k).1 = ESP_OK := by
  cases k <;> first | rfl | exact absurd hk (by decide)

/-- C4, at the scenario of the spec: the access-point mode with ssid "Net",
credential "pass", channel 1, WPA2, no subscriptions, on a collaborator that
succeeds. -/
theorem success_scenario_witness :
    (WIFI_MODE_AP = WIFI_MODE_STA ∨ WIFI_MODE_AP = WIFI_MODE_AP)
    ∧ (∀ s k, returnsStatus k = true → (healthy.respond s k).1 = ESP_OK)
    ∧ (WiFi_init healthy () WIFI_MODE_AP netConfig noSubscriptions).1 = WiFi_return.CORE_WIFI_OK
    ∧ calls (WiFi_init healthy () WIFI_MODE_AP netConfig noSubscriptions).2.trace
        = [Call.nvs_flash_init, Call.esp_netif_init, Call.esp_event_loop_create_default,
           Call.esp_netif_create_default_wifi_ap, Call.esp_wifi_init,
           Call.esp_wifi_set_mode WIFI_MODE_AP,
           Call.esp_wifi_set_config wifi_interface_t.WIFI_IF_AP netConfig,
           Call.esp_wifi_start]
    ∧ (de_init_WiFi healthy
        (WiFi_init healthy () WIFI_MODE_AP netConfig noSubscriptions).2.st).1
        = WiFi_return.CORE_WIFI_OK
    ∧ calls (de_init_WiFi healthy
        (WiFi_init healthy () WIFI_MODE_AP netConfig noSubscriptions).2.st).2.trace
        = [Call.esp_wifi_stop, Call.esp_wifi_deinit] :=
  ⟨Or.inr rfl, healthy_succeeds,
    success_scenario healthy () WIFI_MODE_AP netConfig noSubscriptions (Or.inr rfl)
      healthy_succeeds⟩

/-! ## No lifecycle state -/

/-- C9, refuted: on a collaborator that succeeds, `de_init_WiFi` called before any
`WiFi_init` calls stop and release and returns `CORE_WIFI_OK`, and a second
`WiFi_init` right after a first one that returned `CORE_WIFI_OK` runs its ten calls
again and returns `CORE_WIFI_OK`. -/
theorem wrong_state_calls_succeed :
    (de_init_WiFi healthy ()).1 = WiFi_return.CORE_WIFI_OK
    ∧ calls (de_init_WiFi healthy ()).2.trace = [Call.esp_wifi_stop, Call.esp_wifi_deinit]
    ∧ (WiFi_init healthy () WIFI_MODE_AP netConfig bothSubscriptions).1
        = WiFi_return.CORE_WIFI_OK
    ∧ (WiFi_init healthy (WiFi_init healthy () WIFI_MODE_AP netConfig bothSubscriptions).2.st
        WIFI_MODE_AP netConfig bothSubscriptions).1 = WiFi_return.CORE_WIFI_OK
    ∧ (WiFi_init healthy (WiFi_init healthy () WIFI_MODE_AP netConfig bothSubscriptions).2.st
        WIFI_MODE_AP netConfig bothSubscriptions).2.trace.length = 10 :=
  ⟨rfl, rfl, rfl, rfl, rfl⟩

/-- C9, amended. `WiFi.c` keeps no lifecycle state and has no wrong-state result.
Whatever state the collaborator is in (`s0`, for instance before any `WiFi_init`;
`s1`, for instance the state left by a `WiFi_init` that returned `CORE_WIFI_OK`),
`de_init_WiFi` calls stop first and `WiFi_init` with a valid mode calls storage
preparation first. On a collaborator whose every status-reporting operation
succeeds in every state, both return `CORE_WIFI_OK`. -/
theorem lifecycle_left_to_collaborator {σ : Type} (c : Collaborator σ) (s0 s1 : σ)
    (mode : wifi_mode_t) (config : wifi_config_t) (handlers : event_handlers)
    (hmode : mode = WIFI_MODE_STA ∨ mode = WIFI_MODE_AP) :
    (∃ rest, (de_init_WiFi c s0).2.trace
        = (Call.esp_wifi_stop, (c.respond s0 Call.esp_wifi_stop).1) :: rest)
    ∧ (∃ rest, (WiFi_init c s1 mode config handlers).2.trace
        = (Call.nvs_flash_init, (c.respond s1 Call.nvs_flash_init).1) :: rest)
    ∧ ((∀ s k, returnsStatus k = true → (c.respond s k).1 = ESP_OK) →
        (de_init_WiFi c s0).1 = WiFi_return.CORE_WIFI_OK
        ∧ (WiFi_init c s1 mode config handlers).1 = WiFi_return.CORE_WIFI_OK) := by
  refine ⟨?_, ?_, fun hok => ⟨(de_init_WiFi_all_ok c s0 hok).1,
    WiFi_init_all_ok c s1 mode config handlers hmode hok⟩⟩
  · by_cases h1 : (c.respond s0 Call.esp_wifi_stop).1 = ESP_OK
    · by_cases h2 : (c.respond (c.respond s0 Call.esp_wifi_stop).2 Call.esp_wifi_deinit).1
          = ESP_OK
      · simp [de_init_WiFi, ESP_error_check, h1, h2]
      · simp [de_init_WiFi, ESP_error_check, h1, h2]
    · simp [de_init_WiFi, ESP_error_check, h1]
  · by_cases hst : (c.respond s1 Call.nvs_flash_init).1 = ESP_ERR_NVS_NO_FREE_PAGES
        ∨ (c.respond s1 Call.nvs_flash_init).1 = ESP_ERR_NVS_NEW_VERSION_FOUND
    · obtain ⟨e2, e3, t, ht, -⟩ := WiFi_init_stale c s1 mode config handlers hmode hst
      exact ⟨_, ht⟩
    · obtain ⟨t, ht, -⟩ := WiFi_init_fresh c s1 mode config handlers hmode hst
      exact ⟨_, ht⟩

/-- C9, amended, on a collaborator that succeeds: after a first `WiFi_init` that
returned `CORE_WIFI_OK`, a second `WiFi_init` calls storage preparation first and
returns `CORE_WIFI_OK`; a `de_init_WiFi` from the initial state calls stop first
and returns `CORE_WIFI_OK`. -/
theorem lifecycle_left_to_collaborator_witness :
    (WiFi_init healthy () WIFI_MODE_AP netConfig noSubscriptions).1 = WiFi_return.CORE_WIFI_OK
    ∧ (WIFI_MODE_STA = WIFI_MODE_STA ∨ WIFI_MODE_STA = WIFI_MODE_AP)
    ∧ (∃ rest, (de_init_WiFi healthy ()).2.trace = (Call.esp_wifi_stop, ESP_OK) :: rest)
    ∧ (∃ rest, (WiFi_init healthy
          (WiFi_init healthy () WIFI_MODE_AP netConfig noSubscriptions).2.st
          WIFI_MODE_STA netConfig bothSubscriptions).2.trace
        = (Call.nvs_flash_init, ESP_OK) :: rest)
    ∧ (de_init_WiFi healthy ()).1 = WiFi_return.CORE_WIFI_OK
    ∧ (WiFi_init healthy (WiFi_init healthy () WIFI_MODE_AP netConfig noSubscriptions).2.st
        WIFI_MODE_STA netConfig bothSubscriptions).1 = WiFi_return.CORE_WIFI_OK :=
  have h := lifecycle_left_to_collaborator healthy ()
    (WiFi_init healthy () WIFI_MODE_AP netConfig noSubscriptions).2.st
    WIFI_MODE_STA netConfig bothSubscriptions (Or.inl rfl)
  have hok := h.2.2 healthy_succeeds
  ⟨rfl, Or.inl rfl, h.1, h.2.1, hok.1, hok.2⟩

/-! ## Which faults reach the result -/

theorem validRun_true_answers (steps : List Step) (t : List (Call × Int))
    (h : validRun steps t true) :
    ∀ k e, (k, e) ∈ t → e = ESP_OK ∨ (⟨k, false⟩ : Step) ∈ steps := by
  induction steps generalizing t with
  | nil =>
    obtain ⟨rfl, -⟩ := h
    simp
  | cons st rest ih =>
    obtain ⟨e0, t2, rfl, hstop, hgo⟩ := h
    by_cases hc : st.checked = true ∧ e0 ≠ ESP_OK
    · exact absurd (hstop hc).2 (by simp)
    · intro k e hmem
      rcases List.mem_cons.1 hmem with heq | hin
      · obtain ⟨rfl, rfl⟩ := Prod.mk.inj heq
        by_cases hchk : st.checked = true
        · left
          by_contra hne
          exact hc ⟨hchk, hne⟩
        · right
          rcases st with ⟨k0, b⟩
          simp only [Bool.not_eq_true] at hchk
          subst hchk
          exact List.mem_cons_self _ _
      · rcases ih t2 (hgo hc) k e hin with h1 | h2
        · exact Or.inl h1
        · exact Or.inr (List.mem_cons_of_mem _ h2)

/-- When `WiFi_init` returns `CORE_WIFI_OK`, every call of the trace was answered
`ESP_OK`, except the calls whose answer `WiFi.c` does not test: the erase, the
creation of the default interface, and a first storage preparation that reported
one of the two stale-format codes. -/
theorem WiFi_init_ok_answers {σ : Type} (c : Collaborator σ) (s : σ) (mode : wifi_mode_t)
    (config : wifi_config_t) (handlers : event_handlers)
    (hres : (WiFi_init c s mode config handlers).1 = WiFi_return.CORE_WIFI_OK)
    (k : Call) (e : Int) (hmem : (k, e) ∈ (WiFi_init c s mode config handlers).2.trace) :
    e = ESP_OK ∨ k = Call.nvs_flash_erase ∨ k = Call.esp_netif_create_default_wifi_ap
      ∨ k = Call.esp_netif_create_default_wifi_sta
      ∨ (k = Call.nvs_flash_init
          ∧ (e = ESP_ERR_NVS_NO_FREE_PAGES ∨ e = ESP_ERR_NVS_NEW_VERSION_FOUND)) := by
  by_cases hmode : mode = WIFI_MODE_STA ∨ mode = WIFI_MODE_AP
  swap
  · rw [WiFi_init_of_invalid c s mode config handlers hmode] at hres
    simp at hres
  have hunchecked : ∀ k, (⟨k, false⟩ : Step) ∈ bringUpSteps mode config handlers →
      k = Call.esp_netif_create_default_wifi_ap ∨ k = Call.esp_netif_create_default_wifi_sta := by
    intro k hk
    simp only [bringUpSteps] at hk
    split_ifs at hk <;> simp at hk <;> simp [hk]
  have hrest : ∀ t ok, validRun (bringUpSteps mode config handlers) t ok →
      (WiFi_init c s mode config handlers).1
        = (if ok = true then WiFi_return.CORE_WIFI_OK else WiFi_return.CORE_WIFI_INIT_ERR) →
      (k, e) ∈ t →
      e = ESP_OK ∨ k = Call.nvs_flash_erase ∨ k = Call.esp_netif_create_default_wifi_ap
        ∨ k = Call.esp_netif_create_default_wifi_sta
        ∨ (k = Call.nvs_flash_init
            ∧ (e = ESP_ERR_NVS_NO_FREE_PAGES ∨ e = ESP_ERR_NVS_NEW_VERSION_FOUND)) := by
    intro t ok hv hr hin
    have hok : ok = true := by
      cases ok
      · rw [hres] at hr
        simp at hr
      · rfl
    subst hok
    rcases validRun_true_answers _ t hv k e hin with h | h
    · exact Or.inl h
    · rcases hunchecked k h with h | h
      · exact Or.inr (Or.inr (Or.inl h))
      · exact Or.inr (Or.inr (Or.inr (Or.inl h)))
  by_cases hst : (c.respond s Call.nvs_flash_init).1 = ESP_ERR_NVS_NO_FREE_PAGES
      ∨ (c.respond s Call.nvs_flash_init).1 = ESP_ERR_NVS_NEW_VERSION_FOUND
  · obtain ⟨e2, e3, t, ht, -, hfail, hgo⟩ := WiFi_init_stale c s mode config handlers hmode hst
    have h3 : e3 = ESP_OK := by
      by_contra hne
      rw [(hfail hne).1] at hres
      simp at hres
    obtain ⟨ok, hv, hr⟩ := hgo h3
    rw [ht] at hmem
    simp only [List.mem_cons, Prod.mk.injEq] at hmem
    rcases hmem with ⟨rfl, rfl⟩ | ⟨rfl, rfl⟩ | ⟨rfl, rfl⟩ | hin
    · exact Or.inr (Or.inr (Or.inr (Or.inr ⟨rfl, hst⟩)))
    · exact Or.inr (Or.inl rfl)
    · exact Or.inl h3
    · exact hrest t ok hv hr hin
  · obtain ⟨t, ht, -, hfail, hgo⟩ := WiFi_init_fresh c s mode config handlers hmode hst
    have h1 : (c.respond s Call.nvs_flash_init).1 = ESP_OK := by
      by_contra hne
      rw [(hfail hne).1] at hres
      simp at hres
    obtain ⟨ok, hv, hr⟩ := hgo h1
    rw [ht] at hmem
    simp only [List.mem_cons, Prod.mk.injEq] at hmem
    rcases hmem with ⟨rfl, rfl⟩ | hin
    · exact Or.inl h1
    · exact hrest t ok hv hr hin

end WiFi
